import Mathlib

set_option maxHeartbeats 1000000

/-! Shallow embedding of the quic wrapper package (src/internal/wrapper/quic.go),
a thin adapter around an external QUIC engine (the quic-go library).  Pure Go
functions become Lean functions; the external engine is represented by records of
oracle functions supplied as parameters; Go pointers that may be nil become
`Option`; a nil-pointer dereference (a Go run-time panic) is an explicit
`Except.error GoPanic.nilPointerDereference` outcome. -/

namespace Wrapper

/-- One second in nanoseconds (the value of Go's time.Second as a time.Duration count). -/
def second : Nat := 1000000000

/-- A Go context as used by the wrapper: only its deadline matters here.  The
deadline is a duration (nanoseconds from the moment of creation); `none` means no
deadline (context.Background). -/
structure GoContext where
  deadline : Option Nat
deriving DecidableEq

/-- context.Background(): no deadline. -/
def contextBackground : GoContext := ⟨none⟩

/-- context.WithTimeout(parent, d): the deadline is d, capped by any parent deadline. -/
def contextWithTimeout (parent : GoContext) (d : Nat) : GoContext :=
  match parent.deadline with
  | none => ⟨some d⟩
  | some p => ⟨some (min p d)⟩

/-- A net.Addr value: a network name and an address string. -/
structure Addr where
  network : String
  addrString : String
deriving DecidableEq

/-- A net.Conn, restricted to what quic.go reads from it directly: its RemoteAddr
result, which for the Go interface method may be nil. -/
structure NetConn where
  remoteAddr : Option Addr
deriving DecidableEq

/-- Modelled from the spec: the repository's packet conduit adapter
(newFakePacketConn, defined in a source file of this repository that is not under
src/) wraps the supplied byte-stream connection as a datagram conduit for the
engine.  Only its identity as a wrapper around the connection is needed here. -/
structure FakePacketConn where
  conn : NetConn
deriving DecidableEq

/-- Modelled from the spec: constructor of the packet conduit adapter. -/
def newFakePacketConn (conn : NetConn) : FakePacketConn := ⟨conn⟩

/-- An x509.Certificate, restricted to the one field quic.go reads: Raw (DER bytes). -/
structure X509Certificate where
  raw : List Nat
deriving DecidableEq

/-- A crypto.PrivateKey value (an interface value, treated as an abstract token). -/
abbrev PrivateKey := Nat

/-- Config (quic.go lines 20-24): certificate and private key are pointer /
interface fields and may be nil, hence `Option`. -/
structure Config where
  certificate : Option X509Certificate
  privateKey : Option PrivateKey
  skipVerify : Bool
deriving DecidableEq

/-- Go's tls.ClientAuthType enumeration. -/
inductive ClientAuthType
  | noClientCert
  | requestClientCert
  | requireAnyClientCert
  | verifyClientCertIfGiven
  | requireAndVerifyClientCert
deriving DecidableEq

/-- A tls.Certificate as built by getTLSConfig: a chain of DER blobs plus the key. -/
structure TLSCertificate where
  certificate : List (List Nat)
  privateKey : Option PrivateKey
deriving DecidableEq

/-- The tls.Config fields that getTLSConfig sets. -/
structure TLSConfig where
  minVersion : Nat
  insecureSkipVerify : Bool
  clientAuth : ClientAuthType
  certificates : List TLSCertificate
  nextProtos : List String
deriving DecidableEq

/-- tls.VersionTLS13. -/
def versionTLS13 : Nat := 0x0304

/-- A Go run-time panic relevant to this package: dereferencing a nil pointer. -/
inductive GoPanic
  | nilPointerDereference
deriving DecidableEq

/-- getTLSConfig (quic.go lines 86-98).  Reading config.SkipVerify or
config.Certificate.Raw dereferences the nil pointer when config or
config.Certificate is nil, so those calls panic. -/
def getTLSConfig : Option Config → Except GoPanic TLSConfig
  | none => .error .nilPointerDereference
  | some config =>
    match config.certificate with
    | none => .error .nilPointerDereference
    | some cert =>
      .ok { minVersion := versionTLS13
            insecureSkipVerify := config.skipVerify
            clientAuth := .requireAnyClientCert
            certificates := [{ certificate := [cert.raw], privateKey := config.privateKey }]
            nextProtos := ["pion-quic"] }

/-- The quic.Config fields that getDefaultQuicConfig sets (window sizes in bytes,
keep-alive period in nanoseconds). -/
structure QuicConfig where
  maxIncomingStreams : Nat
  maxIncomingUniStreams : Nat
  maxStreamReceiveWindow : Nat
  maxConnectionReceiveWindow : Nat
  keepAlivePeriod : Nat
deriving DecidableEq

/-- getDefaultQuicConfig (quic.go lines 26-34).  4718592 is the Go constant
4.5 * (1 << 20), an exact integer. -/
def getDefaultQuicConfig : QuicConfig :=
  { maxIncomingStreams := 1000
    maxIncomingUniStreams := 1000
    maxStreamReceiveWindow := 3 * (1 <<< 20)
    maxConnectionReceiveWindow := 4718592
    keepAlivePeriod := 15 * second }

/-- A lower-case hex digit, as produced by Go's %x verb (only ever applied below 16). -/
def hexDigit (n : Nat) : Char :=
  if n < 10 then Char.ofNat (48 + n) else Char.ofNat (87 + n)

/-- Fuel-driven base-16 digit expansion, most significant digit first. -/
def hexCharsAux : Nat → Nat → List Char
  | 0, _ => []
  | fuel + 1, n =>
    if n < 16 then [hexDigit n]
    else hexCharsAux fuel (n / 16) ++ [hexDigit (n % 16)]

/-- The digits of n in base 16, lower case, no leading zeros (Go's %x of a
non-negative integer).  Fuel n+1 always suffices since a number has at most
n+1 base-16 digits. -/
def hexChars (n : Nat) : List Char := hexCharsAux (n + 1) n

/-- Go strings.HasPrefix s pre, byte-for-byte on the underlying characters. -/
def hasPrefixStr (s pre : String) : Bool := pre.data.isPrefixOf s.data

/-- The role tag the quic-go library prints in error strings. -/
def roleString (remote : Bool) : String := if remote then "remote" else "local"

/-- quic-go transport error-code names as printed in error strings (a
representative subset of the fixed table in the engine). -/
inductive TransportErrorCode
  | noError
  | internalError
  | connectionRefused
  | flowControlError
  | streamLimitError
  | streamStateError
  | protocolViolation
  | invalidToken
  | applicationErrorCode
deriving DecidableEq

/-- The fixed upper-case name of a transport error code. -/
def TransportErrorCode.codeName : TransportErrorCode → String
  | .noError => "NO_ERROR"
  | .internalError => "INTERNAL_ERROR"
  | .connectionRefused => "CONNECTION_REFUSED"
  | .flowControlError => "FLOW_CONTROL_ERROR"
  | .streamLimitError => "STREAM_LIMIT_ERROR"
  | .streamStateError => "STREAM_STATE_ERROR"
  | .protocolViolation => "PROTOCOL_VIOLATION"
  | .invalidToken => "INVALID_TOKEN"
  | .applicationErrorCode => "APPLICATION_ERROR"

/-- The error values the external QUIC engine (quic-go) reports from its dial and
accept calls, as observed by the wrapper through err.Error().  An application
error carries the peer/local flag, the application error code and the reason
string sent in the CONNECTION_CLOSE frame. -/
inductive EngineError
  | applicationError (remote : Bool) (code : Nat) (reason : String)
  | transportError (remote : Bool) (code : TransportErrorCode) (reason : String)
  | idleTimeout
  | handshakeTimeout
  | deadlineExceeded
  | statelessReset
deriving DecidableEq

/-- The optional ": reason" tail of a quic-go error string. -/
def reasonSuffix (reason : String) : String := if reason = "" then "" else ": " ++ reason

/-- err.Error() for each engine error, following the quic-go formatting: an
application error prints as "Application error %#x (remote|local)[: reason]",
a transport error prints its fixed upper-case code name, and the remaining
errors have fixed message strings. -/
def EngineError.message : EngineError → String
  | .applicationError remote code reason =>
      "Application error 0x" ++ String.mk (hexChars code) ++ " (" ++ roleString remote ++ ")"
        ++ reasonSuffix reason
  | .transportError remote code reason =>
      code.codeName ++ " (" ++ roleString remote ++ ")" ++ reasonSuffix reason
  | .idleTimeout => "timeout: no recent network activity"
  | .handshakeTimeout => "timeout: handshake did not complete in time"
  | .deadlineExceeded => "context deadline exceeded"
  | .statelessReset => "received a stateless reset"

/-- Whether an engine error is an application error whose code is 0 (a
connection closed without error, by either side). -/
def isAppErrZero : EngineError → Bool
  | .applicationError _ code _ => code == 0
  | _ => false

/-- A plain Go error value as used for arguments and engine close results: all
the wrapper ever reads from it is its Error() string. -/
structure GoErr where
  message : String
deriving DecidableEq

/-- io.EOF: its Error() string is "EOF". -/
def ioEOF : GoErr := ⟨"EOF"⟩

/-- The engine-side connection handle (quic.Conn), as a record of the oracle
calls the wrapper makes on it.  Stream handles are abstract tokens. -/
structure EngineConn where
  acceptStream : GoContext → Except EngineError Nat
  acceptUniStream : GoContext → Except EngineError Nat
  openStream : Except EngineError Nat
  openUniStream : Except EngineError Nat
  closeWithError : Nat → String → Option GoErr
  peerCertificates : List X509Certificate

/-- The engine-side listener handle (quic.Listener), abstract. -/
abbrev EngineListener := Nat

/-- A Session (quic.go lines 101-103) wraps one engine connection. -/
structure Session where
  s : EngineConn

/-- A bidirectional Stream wraps one engine stream handle. -/
structure Stream where
  s : Nat
deriving DecidableEq

/-- A WritableStream wraps one engine send stream handle. -/
structure WritableStream where
  s : Nat
deriving DecidableEq

/-- A ReadableStream wraps one engine receive stream handle. -/
structure ReadableStream where
  s : Nat
deriving DecidableEq

/-- A Listener wraps one engine listener handle. -/
structure Listener where
  l : EngineListener
deriving DecidableEq

/-- The error results of the construction functions: either the package's own
sentinel error value errClientWithoutRemoteAddress (a distinct errors.New
identity) or an error propagated from the engine. -/
inductive WrapperError
  | clientWithoutRemoteAddress
  | engine (e : EngineError)
deriving DecidableEq

/-- errClientWithoutRemoteAddress (quic.go line 36); its Error() string is
"quic: creating client without remote address". -/
def errClientWithoutRemoteAddress : WrapperError := .clientWithoutRemoteAddress

/-- The type of the engine's quic.Dial call: context, wrapped packet conn,
remote address, TLS parameters, engine parameters. -/
abbrev QuicDialFn :=
  GoContext → FakePacketConn → Addr → TLSConfig → QuicConfig → Except EngineError EngineConn

/-- The type of the engine's quic.DialAddr call. -/
abbrev QuicDialAddrFn :=
  GoContext → String → TLSConfig → QuicConfig → Except EngineError EngineConn

/-- The type of the engine's quic.Listen call. -/
abbrev QuicListenFn :=
  FakePacketConn → TLSConfig → QuicConfig → Except EngineError EngineListener

/-- The type of the engine's quic.ListenAddr call. -/
abbrev QuicListenAddrFn :=
  String → TLSConfig → QuicConfig → Except EngineError EngineListener

/-- Client (quic.go lines 39-53): checks the remote address first, then
evaluates getTLSConfig (which may panic) while building the quic.Dial call,
then dials under a 10 second context deadline. -/
def Client (conn : NetConn) (config : Option Config) (dial : QuicDialFn) :
    Except GoPanic (Except WrapperError Session) :=
  match conn.remoteAddr with
  | none => .ok (.error errClientWithoutRemoteAddress)
  | some rAddr =>
    match getTLSConfig config with
    | .error p => .error p
    | .ok tcfg =>
      match dial (contextWithTimeout contextBackground (10 * second)) (newFakePacketConn conn)
          rAddr tcfg getDefaultQuicConfig with
      | .error e => .ok (.error (.engine e))
      | .ok c => .ok (.ok ⟨c⟩)

/-- Dial (quic.go lines 56-66): dials an address under a 10 second context
deadline; getTLSConfig is evaluated (and may panic) before the engine call. -/
def Dial (addr : String) (config : Option Config) (dialAddr : QuicDialAddrFn) :
    Except GoPanic (Except WrapperError Session) :=
  match getTLSConfig config with
  | .error p => .error p
  | .ok tcfg =>
    match dialAddr (contextWithTimeout contextBackground (10 * second)) addr tcfg
        getDefaultQuicConfig with
    | .error e => .ok (.error (.engine e))
    | .ok c => .ok (.ok ⟨c⟩)

/-- Server (quic.go lines 69-75): getTLSConfig is evaluated (and may panic)
before the engine's Listen call. -/
def Server (conn : NetConn) (config : Option Config) (listen : QuicListenFn) :
    Except GoPanic (Except WrapperError Listener) :=
  match getTLSConfig config with
  | .error p => .error p
  | .ok tcfg =>
    match listen (newFakePacketConn conn) tcfg getDefaultQuicConfig with
    | .error e => .ok (.error (.engine e))
    | .ok l => .ok (.ok ⟨l⟩)

/-- Listen (quic.go lines 78-84): getTLSConfig is evaluated (and may panic)
before the engine's ListenAddr call. -/
def Listen (addr : String) (config : Option Config) (listenAddr : QuicListenAddrFn) :
    Except GoPanic (Except WrapperError Listener) :=
  match getTLSConfig config with
  | .error p => .error p
  | .ok tcfg =>
    match listenAddr addr tcfg getDefaultQuicConfig with
    | .error e => .ok (.error (.engine e))
    | .ok l => .ok (.ok ⟨l⟩)

/-- Session.OpenStream (quic.go lines 106-112). -/
def Session.OpenStream (s : Session) : Except EngineError Stream :=
  match s.s.openStream with
  | .error e => .error e
  | .ok h => .ok ⟨h⟩

/-- Session.OpenUniStream (quic.go lines 115-121). -/
def Session.OpenUniStream (s : Session) : Except EngineError WritableStream :=
  match s.s.openUniStream with
  | .error e => .error e
  | .ok h => .ok ⟨h⟩

/-- Session.AcceptStream (quic.go lines 124-136): waits under a 10 second
context deadline; an error whose message starts with "Application error 0x0"
is treated as a closed-without-error session and yields (nil, nil), i.e.
`.ok none`; any other error is returned unchanged. -/
def Session.AcceptStream (s : Session) : Except EngineError (Option Stream) :=
  match s.s.acceptStream (contextWithTimeout contextBackground (10 * second)) with
  | .error err =>
    if hasPrefixStr (EngineError.message err) "Application error 0x0" then .ok none
    else .error err
  | .ok str => .ok (some ⟨str⟩)

/-- Session.AcceptUniStream (quic.go lines 139-151): same classification as
AcceptStream, yielding a ReadableStream. -/
def Session.AcceptUniStream (s : Session) : Except EngineError (Option ReadableStream) :=
  match s.s.acceptUniStream (contextWithTimeout contextBackground (10 * second)) with
  | .error err =>
    if hasPrefixStr (EngineError.message err) "Application error 0x0" then .ok none
    else .error err
  | .ok str => .ok (some ⟨str⟩)

/-- Session.GetRemoteCertificates (quic.go lines 154-156). -/
def Session.GetRemoteCertificates (s : Session) : List X509Certificate :=
  s.s.peerCertificates

/-- Session.CloseWithError (quic.go lines 165-171): the reason string sent to
the engine is "nil" when the error argument is nil and err.Error() otherwise.
The code argument is a Go uint16, losslessly widened by the engine. -/
def Session.CloseWithError (s : Session) (code : Nat) (err : Option GoErr) : Option GoErr :=
  s.s.closeWithError code (match err with | none => "nil" | some e => e.message)

/-- Session.Close (quic.go lines 159-161). -/
def Session.Close (s : Session) : Option GoErr :=
  s.CloseWithError 0 (some ioEOF)

/-- A constant engine connection whose accept calls always return r; used to
instantiate theorems at concrete inputs. -/
def engineConnOf (r : Except EngineError Nat) : EngineConn :=
  { acceptStream := fun _ => r
    acceptUniStream := fun _ => r
    openStream := r
    openUniStream := r
    closeWithError := fun _ _ => none
    peerCertificates := [] }

/-- A connection that reports no remote address. -/
def connNoAddr : NetConn := ⟨none⟩

/-- A connection that reports a remote address. -/
def connWithAddr : NetConn := ⟨some ⟨"udp", "203.0.113.7:4242"⟩⟩

/-- A sample valid configuration. -/
def sampleConfig : Config := ⟨some ⟨[48, 130, 1, 1]⟩, some 7, false⟩

/-- A sample engine dial oracle that always fails with an idle timeout. -/
def dialSample : QuicDialFn := fun _ _ _ _ _ => .error .idleTimeout

/-- A sample engine address-dial oracle that always fails with an idle timeout. -/
def dialAddrSample : QuicDialAddrFn := fun _ _ _ _ => .error .idleTimeout

/-- A sample engine listen oracle that always succeeds. -/
def listenSample : QuicListenFn := fun _ _ _ => .ok 0

/-- A sample engine address-listen oracle that always succeeds. -/
def listenAddrSample : QuicListenAddrFn := fun _ _ _ => .ok 0

/-- The TLS parameter set derived from sampleConfig. -/
def sampleTLS : TLSConfig :=
  { minVersion := versionTLS13
    insecureSkipVerify := false
    clientAuth := .requireAnyClientCert
    certificates := [⟨[[48, 130, 1, 1]], some 7⟩]
    nextProtos := ["pion-quic"] }

/-! ### Helper lemmas about list prefixes and the hex digit expansion -/

/-- Appending the same list on the left preserves the prefix check. -/
theorem isPrefixOf_append_same (l p t : List Char) :
    (l ++ p).isPrefixOf (l ++ t) = p.isPrefixOf t := by
  induction l with
  | nil => rfl
  | cons a l ih => simpa using ih

/-- If some truncation of p fails the prefix check against t, so does p. -/
theorem isPrefixOf_take_false (p t : List Char) (k : Nat)
    (h : (List.take k p).isPrefixOf t = false) : p.isPrefixOf t = false := by
  cases hpt : p.isPrefixOf t with
  | false => rfl
  | true =>
    have h1 : p <+: t := List.isPrefixOf_iff_prefix.mp hpt
    have h2 : List.take k p <+: t := (List.take_prefix k p).trans h1
    have h3 := List.isPrefixOf_iff_prefix.mpr h2
    rw [h] at h3
    exact Bool.noConfusion h3

/-- A prefix check against l ++ t is settled inside l when p is no longer than l. -/
theorem isPrefixOf_append_of_le (p l t : List Char) (h : p.length ≤ l.length) :
    p.isPrefixOf (l ++ t) = p.isPrefixOf l := by
  induction p generalizing l with
  | nil => simp
  | cons a p ih =>
    cases l with
    | nil => simp at h
    | cons b l =>
      have h2 : p.length ≤ l.length := by simpa using h
      simp only [List.cons_append, List.isPrefixOf_cons₂]
      rw [ih l h2]

/-- The data of an appended string is the appended data. -/
theorem dataAppendEq (s t : String) : (s ++ t).data = s.data ++ t.data := by
  cases s
  cases t
  rfl

/-- The data of String.mk. -/
theorem mkData (l : List Char) : (String.mk l).data = l := rfl

/-- No nonzero value below 16 maps to the digit character zero. -/
theorem hexDigit_ne_zero : ∀ n, n < 16 → n ≠ 0 → (('0' : Char) == hexDigit n) = false := by
  decide

/-- Within fuel, the hex expansion of a nonzero number starts with a nonzero digit. -/
theorem hexCharsAux_head (fuel : Nat) : ∀ n, n < fuel → n ≠ 0 →
    ∃ c t, hexCharsAux fuel n = c :: t ∧ (('0' : Char) == c) = false := by
  induction fuel with
  | zero => intro n h; omega
  | succ fuel ih =>
    intro n hlt hne
    by_cases h16 : n < 16
    · exact ⟨hexDigit n, [], by simp [hexCharsAux, h16], hexDigit_ne_zero n h16 hne⟩
    · have hdiv : n / 16 ≠ 0 := by omega
      have hdivlt : n / 16 < fuel := by omega
      obtain ⟨c, t, heq, hc⟩ := ih (n / 16) hdivlt hdiv
      refine ⟨c, t ++ [hexDigit (n % 16)], ?_, hc⟩
      simp [hexCharsAux, h16, heq]

/-- The hex expansion of zero. -/
theorem hexChars_zero : hexChars 0 = ['0'] := rfl

/-- The hex expansion of a nonzero number starts with a digit other than zero. -/
theorem hexChars_head (n : Nat) (h : n ≠ 0) :
    ∃ c t, hexChars n = c :: t ∧ (('0' : Char) == c) = false :=
  hexCharsAux_head (n + 1) n (Nat.lt_succ_self n) h

/-- Every transport error-code name differs from the application error tag within
its first two characters, and is at least that long. -/
theorem codeName_mismatch (code : TransportErrorCode) :
    (List.take 2 "Application error 0x0".data).isPrefixOf code.codeName.data = false ∧
    (List.take 2 "Application error 0x0".data).length ≤ code.codeName.data.length := by
  cases code <;> exact ⟨by decide, by decide⟩

/-- A string starting with a transport error-code name never passes the
application-error prefix check. -/
theorem codeName_not_app (code : TransportErrorCode) (rest : List Char) :
    "Application error 0x0".data.isPrefixOf (code.codeName.data ++ rest) = false := by
  apply isPrefixOf_take_false _ _ 2
  rw [isPrefixOf_append_of_le _ _ _ (codeName_mismatch code).2]
  exact (codeName_mismatch code).1

/-- Decomposition of an application error message into the fixed tag, the hex
digits of the code, and the remaining text. -/
theorem appErrMessageData (remote : Bool) (code : Nat) (reason : String) :
    (EngineError.message (.applicationError remote code reason)).data
      = "Application error 0x".data ++ (hexChars code ++
          (" (" ++ roleString remote ++ ")" ++ reasonSuffix reason).data) := by
  simp [EngineError.message, dataAppendEq, mkData, List.append_assoc]

/-- Decomposition of a transport error message into the code name and the
remaining text. -/
theorem transportMessageData (remote : Bool) (code : TransportErrorCode) (reason : String) :
    (EngineError.message (.transportError remote code reason)).data
      = code.codeName.data ++ (" (" ++ roleString remote ++ ")" ++ reasonSuffix reason).data := by
  simp [EngineError.message, dataAppendEq, List.append_assoc]

/-- The wrapper's string test "does err.Error() start with Application error 0x0"
holds exactly for application errors whose code is 0, local or remote, whatever
the reason string. -/
theorem message_code_zero (e : EngineError) :
    hasPrefixStr (EngineError.message e) "Application error 0x0" = isAppErrZero e := by
  cases e with
  | applicationError remote code reason =>
    show "Application error 0x0".data.isPrefixOf
        (EngineError.message (.applicationError remote code reason)).data = (code == 0)
    have hpre : "Application error 0x0".data = "Application error 0x".data ++ ['0'] := rfl
    rw [appErrMessageData, hpre, isPrefixOf_append_same]
    by_cases hc : code = 0
    · subst hc
      simp [hexChars_zero]
    · obtain ⟨c, t, heq, hcne⟩ := hexChars_head code hc
      have hr : (code == 0) = false := by
        simpa using hc
      rw [hr, heq]
      simp [List.isPrefixOf_cons₂, hcne]
  | transportError remote code reason =>
    show "Application error 0x0".data.isPrefixOf
        (EngineError.message (.transportError remote code reason)).data = false
    rw [transportMessageData]
    exact codeName_not_app code _
  | idleTimeout => decide
  | handshakeTimeout => decide
  | deadlineExceeded => decide
  | statelessReset => decide

/-! ### Claim theorems -/

/-- Claim C2: whenever TLS parameters are derived from a configuration, the
derived set requires protocol version at least TLS 1.3 (its minimum version is
exactly TLS 1.3) and mutual authentication: the server side demands a client
certificate (RequireAnyClientCert) and the local certificate/key pair is always
the one presented; the skip-verification flag never affects this, as the
configuration is arbitrary here. -/
theorem tls_min_version_and_mutual_auth (cfg : Option Config) (t : TLSConfig)
    (h : getTLSConfig cfg = .ok t) :
    t.minVersion = versionTLS13 ∧
    t.clientAuth = ClientAuthType.requireAnyClientCert ∧
    ∃ c cert, cfg = some c ∧ c.certificate = some cert ∧
      t.certificates = [⟨[cert.raw], c.privateKey⟩] := by
  cases cfg with
  | none => simp [getTLSConfig] at h
  | some c =>
    cases hcert : c.certificate with
    | none => simp [getTLSConfig, hcert] at h
    | some cert =>
      simp only [getTLSConfig, hcert] at h
      obtain rfl := (Except.ok.injEq _ _).mp h
      exact ⟨rfl, rfl, c, cert, rfl, hcert, rfl⟩

/-- Witness for claim C2 at a concrete configuration. -/
theorem tls_min_version_and_mutual_auth_witness :
    sampleTLS.minVersion = versionTLS13 ∧
    sampleTLS.clientAuth = ClientAuthType.requireAnyClientCert ∧
    ∃ c cert, (some sampleConfig : Option Config) = some c ∧ c.certificate = some cert ∧
      sampleTLS.certificates = [⟨[cert.raw], c.privateKey⟩] :=
  tls_min_version_and_mutual_auth (some sampleConfig) sampleTLS rfl

/-- Claim C7: every derived TLS parameter set lists exactly the fixed
application-protocol identifier "pion-quic". -/
theorem tls_next_protos_fixed (cfg : Option Config) (t : TLSConfig)
    (h : getTLSConfig cfg = .ok t) : t.nextProtos = ["pion-quic"] := by
  cases cfg with
  | none => simp [getTLSConfig] at h
  | some c =>
    cases hcert : c.certificate with
    | none => simp [getTLSConfig, hcert] at h
    | some cert =>
      simp only [getTLSConfig, hcert] at h
      obtain rfl := (Except.ok.injEq _ _).mp h
      rfl

/-- Witness for claim C7 at a concrete configuration. -/
theorem tls_next_protos_fixed_witness : sampleTLS.nextProtos = ["pion-quic"] :=
  tls_next_protos_fixed (some sampleConfig) sampleTLS rfl

/-- Claim C6: the default engine parameter set bounds incoming bidirectional and
unidirectional streams at 1000 each, sets a 3 MB per-stream and 4.5 MB
per-connection receive window with the connection window strictly larger, and a
non-zero keep-alive interval of 15 seconds. -/
theorem default_quic_config_values :
    getDefaultQuicConfig.maxIncomingStreams = 1000 ∧
    getDefaultQuicConfig.maxIncomingUniStreams = 1000 ∧
    getDefaultQuicConfig.maxStreamReceiveWindow = 3 * (1 <<< 20) ∧
    getDefaultQuicConfig.maxConnectionReceiveWindow = 4718592 ∧
    getDefaultQuicConfig.maxStreamReceiveWindow
      < getDefaultQuicConfig.maxConnectionReceiveWindow ∧
    getDefaultQuicConfig.keepAlivePeriod = 15 * second ∧
    0 < getDefaultQuicConfig.keepAlivePeriod :=
  ⟨rfl, rfl, rfl, rfl, by decide, rfl, by decide⟩

/-- Claim C8: both configuration builders are deterministic: equal inputs to the
TLS-parameter builder give equal outputs, and the engine-parameter builder
always yields the same parameter set; both are pure functions of their inputs
(they read no randomness or external state, as their Lean embeddings are pure). -/
theorem config_builders_deterministic :
    (∀ cfg1 cfg2 : Option Config, cfg1 = cfg2 → getTLSConfig cfg1 = getTLSConfig cfg2) ∧
    getDefaultQuicConfig = getDefaultQuicConfig :=
  ⟨fun _ _ h => by rw [h], rfl⟩

/-- Witness for claim C8 at a concrete configuration. -/
theorem config_builders_deterministic_witness :
    getTLSConfig (some sampleConfig) = getTLSConfig (some sampleConfig) :=
  config_builders_deterministic.1 (some sampleConfig) (some sampleConfig) rfl

/-- Claim C4: CloseWithError always forms the closure signal: with a nil error
argument it sends the literal placeholder reason "nil", and with a non-nil
error it sends exactly that error's message; in both cases the engine call is
made with the given code, so the call never fails because of a nil error. -/
theorem close_with_error_accepts_nil (c : EngineConn) (code : Nat) (e : GoErr) :
    Session.CloseWithError ⟨c⟩ code none = c.closeWithError code "nil" ∧
    Session.CloseWithError ⟨c⟩ code (some e) = c.closeWithError code e.message :=
  ⟨rfl, rfl⟩

/-- Claim C5: Close() is extensionally CloseWithError with code 0 and io.EOF: it
sends application error code 0 with the end-of-stream reason string "EOF" to
the engine and returns the same result. -/
theorem close_delegates_to_close_with_error (c : EngineConn) :
    Session.Close ⟨c⟩ = Session.CloseWithError ⟨c⟩ 0 (some ioEOF) ∧
    Session.Close ⟨c⟩ = c.closeWithError 0 "EOF" :=
  ⟨rfl, rfl⟩

/-- Claim C3: Client on a connection reporting no remote address fails with the
sentinel errClientWithoutRemoteAddress without consulting the engine's dial at
all (the result is independent of the dial oracle), and on a connection that
does report a remote address this sentinel is never the result. -/
theorem client_remote_address_check (conn : NetConn) (config : Option Config)
    (dial : QuicDialFn) :
    (conn.remoteAddr = none →
      Client conn config dial = .ok (.error errClientWithoutRemoteAddress) ∧
      ∀ dial2 : QuicDialFn, Client conn config dial = Client conn config dial2) ∧
    (conn.remoteAddr ≠ none →
      Client conn config dial ≠ .ok (.error errClientWithoutRemoteAddress)) := by
  constructor
  · intro h
    exact ⟨by simp [Client, h], fun dial2 => by simp [Client, h]⟩
  · intro h
    cases ha : conn.remoteAddr with
    | none => exact absurd ha h
    | some a =>
      simp only [Client, ha]
      cases htls : getTLSConfig config with
      | error p => simp
      | ok t =>
        cases hd : dial (contextWithTimeout contextBackground (10 * second))
            (newFakePacketConn conn) a t getDefaultQuicConfig with
        | error e => simp [hd, errClientWithoutRemoteAddress]
        | ok c => simp [hd]

/-- Witness for claim C3 at a concrete connection without a remote address. -/
theorem client_remote_address_check_witness :
    Client connNoAddr (some sampleConfig) dialSample
      = .ok (.error errClientWithoutRemoteAddress) :=
  ((client_remote_address_check connNoAddr (some sampleConfig) dialSample).1 rfl).1

/-- Claim C1 counterexample: the engine's accept call can report an application
error with code 0 for a closure initiated locally, not by the peer (its message
is "Application error 0x0 (local): bye").  That error is not a peer closure, so
the claim requires it to be propagated unchanged, yet AcceptStream returns the
absent result with no error instead. -/
theorem accept_local_zero_not_propagated :
    Session.AcceptStream ⟨engineConnOf (.error (.applicationError false 0 "bye"))⟩
      ≠ .error (.applicationError false 0 "bye") ∧
    Session.AcceptStream ⟨engineConnOf (.error (.applicationError false 0 "bye"))⟩
      = .ok none := by
  refine ⟨fun h => ?_, rfl⟩
  rw [show Session.AcceptStream ⟨engineConnOf (.error (.applicationError false 0 "bye"))⟩
      = .ok none from rfl] at h
  exact Except.noConfusion h

/-- Claim C1 (amended): when the engine's accept call reports an application
error with code 0 — whether the closure was initiated by the peer or locally —
AcceptStream and AcceptUniStream return the absent result with no error; every
error that is not an application error with code 0 is propagated to the caller
unchanged. -/
theorem accept_classifies_code_zero (conn : EngineConn) (e : EngineError)
    (hb : conn.acceptStream (contextWithTimeout contextBackground (10 * second)) = .error e)
    (hu : conn.acceptUniStream (contextWithTimeout contextBackground (10 * second)) = .error e) :
    (isAppErrZero e = true →
      Session.AcceptStream ⟨conn⟩ = .ok none ∧ Session.AcceptUniStream ⟨conn⟩ = .ok none) ∧
    (isAppErrZero e = false →
      Session.AcceptStream ⟨conn⟩ = .error e ∧ Session.AcceptUniStream ⟨conn⟩ = .error e) := by
  constructor
  · intro hz
    constructor
    · simp [Session.AcceptStream, hb, message_code_zero, hz]
    · simp [Session.AcceptUniStream, hu, message_code_zero, hz]
  · intro hz
    constructor
    · simp [Session.AcceptStream, hb, message_code_zero, hz]
    · simp [Session.AcceptUniStream, hu, message_code_zero, hz]

/-- Witness for the amended claim C1 at a concrete peer closure with code 0. -/
theorem accept_classifies_code_zero_witness :
    Session.AcceptStream ⟨engineConnOf (.error (.applicationError true 0 "done"))⟩ = .ok none ∧
    Session.AcceptUniStream ⟨engineConnOf (.error (.applicationError true 0 "done"))⟩
      = .ok none :=
  (accept_classifies_code_zero (engineConnOf (.error (.applicationError true 0 "done")))
    (.applicationError true 0 "done") rfl rfl).1 rfl

/-- Claim C9: every bounded-wait operation — Client, Dial, AcceptStream and
AcceptUniStream — consults the engine only at the context carrying the fixed
10-second deadline (so its result is unchanged if the engine oracle is replaced
by one agreeing on that context), that deadline equals 10 seconds, and an
expired wait (the engine's deadline-exceeded result) surfaces as that timeout
error rather than being swallowed or reclassified. -/
theorem bounded_wait_ten_second_deadline :
    (∀ (conn : NetConn) (config : Option Config) (f g : QuicDialFn),
      (∀ pc a t q, f (contextWithTimeout contextBackground (10 * second)) pc a t q
          = g (contextWithTimeout contextBackground (10 * second)) pc a t q) →
      Client conn config f = Client conn config g) ∧
    (∀ (addr : String) (config : Option Config) (f g : QuicDialAddrFn),
      (∀ a t q, f (contextWithTimeout contextBackground (10 * second)) a t q
          = g (contextWithTimeout contextBackground (10 * second)) a t q) →
      Dial addr config f = Dial addr config g) ∧
    (∀ c1 c2 : EngineConn,
      c1.acceptStream (contextWithTimeout contextBackground (10 * second))
          = c2.acceptStream (contextWithTimeout contextBackground (10 * second)) →
      Session.AcceptStream ⟨c1⟩ = Session.AcceptStream ⟨c2⟩) ∧
    (∀ c1 c2 : EngineConn,
      c1.acceptUniStream (contextWithTimeout contextBackground (10 * second))
          = c2.acceptUniStream (contextWithTimeout contextBackground (10 * second)) →
      Session.AcceptUniStream ⟨c1⟩ = Session.AcceptUniStream ⟨c2⟩) ∧
    (∀ c : EngineConn,
      c.acceptStream (contextWithTimeout contextBackground (10 * second))
          = .error .deadlineExceeded →
      Session.AcceptStream ⟨c⟩ = .error .deadlineExceeded) ∧
    (∀ c : EngineConn,
      c.acceptUniStream (contextWithTimeout contextBackground (10 * second))
          = .error .deadlineExceeded →
      Session.AcceptUniStream ⟨c⟩ = .error .deadlineExceeded) ∧
    (contextWithTimeout contextBackground (10 * second)).deadline = some (10 * second) := by
  refine ⟨?_, ?_, ?_, ?_, ?_, ?_, rfl⟩
  · intro conn config f g h
    cases ha : conn.remoteAddr with
    | none => simp [Client, ha]
    | some a => simp [Client, ha, h]
  · intro addr config f g h
    simp [Dial, h]
  · intro c1 c2 h
    simp [Session.AcceptStream, h]
  · intro c1 c2 h
    simp [Session.AcceptUniStream, h]
  · intro c h
    simp [Session.AcceptStream, h, message_code_zero, isAppErrZero]
  · intro c h
    simp [Session.AcceptUniStream, h, message_code_zero, isAppErrZero]

/-- Witness for claim C9: a concrete accept whose wait expired returns the
deadline-exceeded error. -/
theorem bounded_wait_ten_second_deadline_witness :
    Session.AcceptStream ⟨engineConnOf (.error .deadlineExceeded)⟩
      = .error .deadlineExceeded :=
  bounded_wait_ten_second_deadline.2.2.2.2.1 (engineConnOf (.error .deadlineExceeded)) rfl

/-- Claim C10 counterexample: a Client call with a nil Config on a connection
that reports no remote address does not panic — the remote-address check runs
first and returns the configuration error errClientWithoutRemoteAddress, so the
claim that every such call panics is false. -/
theorem client_nil_config_counterexample :
    Client connNoAddr none dialSample = .ok (.error errClientWithoutRemoteAddress) ∧
    Client connNoAddr none dialSample ≠ .error GoPanic.nilPointerDereference := by
  refine ⟨rfl, fun h => ?_⟩
  rw [show Client connNoAddr none dialSample
      = .ok (.error errClientWithoutRemoteAddress) from rfl] at h
  exact Except.noConfusion h

/-- Claim C10 (amended): the construction operations perform no validation of
the required configuration fields: every call to Dial, Server or Listen with a
nil Config or a nil Certificate field panics with a nil-pointer dereference in
the TLS-parameter builder instead of returning a configuration error, and so
does every such call to Client whose connection reports a remote address; when
the connection reports no remote address, Client instead returns the
remote-address configuration error before the TLS-parameter builder runs. -/
theorem construction_nil_config_panics :
    (∀ (addr : String) (d : QuicDialAddrFn),
      Dial addr none d = .error GoPanic.nilPointerDereference) ∧
    (∀ (addr : String) (c : Config) (d : QuicDialAddrFn), c.certificate = none →
      Dial addr (some c) d = .error GoPanic.nilPointerDereference) ∧
    (∀ (conn : NetConn) (l : QuicListenFn),
      Server conn none l = .error GoPanic.nilPointerDereference) ∧
    (∀ (conn : NetConn) (c : Config) (l : QuicListenFn), c.certificate = none →
      Server conn (some c) l = .error GoPanic.nilPointerDereference) ∧
    (∀ (addr : String) (l : QuicListenAddrFn),
      Listen addr none l = .error GoPanic.nilPointerDereference) ∧
    (∀ (addr : String) (c : Config) (l : QuicListenAddrFn), c.certificate = none →
      Listen addr (some c) l = .error GoPanic.nilPointerDereference) ∧
    (∀ (conn : NetConn) (config : Option Config) (d : QuicDialFn),
      conn.remoteAddr ≠ none →
      (config = none ∨ ∃ c, config = some c ∧ c.certificate = none) →
      Client conn config d = .error GoPanic.nilPointerDereference) ∧
    (∀ (conn : NetConn) (config : Option Config) (d : QuicDialFn),
      conn.remoteAddr = none →
      Client conn config d = .ok (.error errClientWithoutRemoteAddress)) := by
  refine ⟨?_, ?_, ?_, ?_, ?_, ?_, ?_, ?_⟩
  · intro addr d
    simp [Dial, getTLSConfig]
  · intro addr c d hc
    simp [Dial, getTLSConfig, hc]
  · intro conn l
    simp [Server, getTLSConfig]
  · intro conn c l hc
    simp [Server, getTLSConfig, hc]
  · intro addr l
    simp [Listen, getTLSConfig]
  · intro addr c l hc
    simp [Listen, getTLSConfig, hc]
  · intro conn config d hr hcfg
    cases ha : conn.remoteAddr with
    | none => exact absurd ha hr
    | some a =>
      rcases hcfg with rfl | ⟨c, rfl, hc⟩
      · simp [Client, ha, getTLSConfig]
      · simp [Client, ha, getTLSConfig, hc]
  · intro conn config d hr
    simp [Client, hr]

/-- Witness for the amended claim C10: Dial with a configuration whose
certificate is nil panics with a nil-pointer dereference. -/
theorem construction_nil_config_panics_witness :
    Dial "203.0.113.7:4242" (some ⟨none, some 7, false⟩) dialAddrSample
      = .error GoPanic.nilPointerDereference :=
  construction_nil_config_panics.2.1 "203.0.113.7:4242" ⟨none, some 7, false⟩
    dialAddrSample rfl

end Wrapper
